import Mathlib

/-!
Verification development for the crop-field-health repository.

The embedding models the two source files:
* `src/preprocessing/inspect.py` — manifest loading, path resolution,
  image assembly and the random-sample inspection entry point;
* `src/prototype.py` — the `FarmlandAnomalyModel` container
  (model selection and custom-object validation).

Python dictionaries are modelled as association lists preserving insertion
order; decoded images (`np.array(Image.open(path))`) are modelled through an
abstract decoder `decode : String → PixelArray` passed as a parameter; the
uniform random draw of `np.random.choice(ids, n, replace=False)` is modelled
by taking the first `n` elements of a shuffled copy of the list, the shuffle
being an explicit function parameter (theorems assume it is a permutation).
Fallible Python code (assertions, KeyError, ValueError, FileNotFoundError)
is modelled with `Except String`.
-/

namespace CropFieldHealth

/-- A decoded pixel array, standing in for a numpy image array. -/
abbrev PixelArray := List (List Nat)

/-- A PathRecord: one manifest entry, a Python dict in insertion order.
Keys are `id`, `classes` and the category names; values are strings
(paths; the `classes` value is kept abstract as a string as well). -/
abbrev PathRecord := List (String × String)

/-- Embeds `get_processed_paths` (src/preprocessing/inspect.py, lines 71-80):
linear scan over the records for the first whose `id` field equals
`image_id`; `KeyError` with a message naming the id when none matches. -/
def get_processed_paths (image_id : String) (paths_list : List PathRecord) :
    Except String PathRecord :=
  match paths_list with
  | [] => Except.error ("The item " ++ image_id ++ " was not found in the dataset.")
  | item :: rest =>
    match item.lookup "id" with
    | none => Except.error "KeyError: id"
    | some v => if v = image_id then Except.ok item else get_processed_paths image_id rest

/-- Embeds `single_image_info` (lines 82-85): resolve the record, then decode
the file stored under the requested category key. -/
def single_image_info (image_id : String) (category : String)
    (paths_list : List PathRecord) (decode : String → PixelArray) :
    Except String PixelArray := do
  let file_paths ← get_processed_paths image_id paths_list
  match file_paths.lookup category with
  | some p => Except.ok (decode p)
  | none => Except.error ("KeyError: " ++ category)

/-- Embeds `all_image_info` (lines 87-95): resolve the record, then decode
every key except `id` and `classes`, keeping the key order of the record. -/
def all_image_info (image_id : String) (paths_list : List PathRecord)
    (decode : String → PixelArray) :
    Except String (List (String × PixelArray)) := do
  let file_paths ← get_processed_paths image_id paths_list
  Except.ok (file_paths.filterMap (fun kv =>
    if kv.1 = "id" then none
    else if kv.1 = "classes" then none
    else some (kv.1, decode kv.2)))

/-- Embeds `np.random.choice(ids, n, replace=False)`: numpy rejects a
negative size and a sample larger than the population; otherwise it returns
`n` distinct positions of the population. The caller passes the population
already shuffled, so drawing is taking the first `n` elements. -/
def npRandomChoiceNoReplace (shuffled : List String) (n : Int) :
    Except String (List String) :=
  if n < 0 then Except.error "ValueError: negative dimensions are not allowed"
  else if (shuffled.length : Int) < n then
    Except.error "ValueError: Cannot take a larger sample than population when replace is False"
  else Except.ok (shuffled.take n.toNat)

/-- Left-to-right effectful map, embedding Python `list(map(f, xs))`: the
first raised error propagates. -/
def mapExcept {α β : Type} (f : α → Except String β) : List α → Except String (List β)
  | [] => Except.ok []
  | a :: l => do
    let b ← f a
    let rest ← mapExcept f l
    Except.ok (b :: rest)

/-- The `size` argument of `show_random_specific_images`: either a Python
list/tuple of integers, or a value of some other type (carrying its type
name for the assertion message). -/
inductive SizeArg
  | seq (elems : List Int)
  | nonSeq (typeName : String)

/-- Embeds the validation and gathering phase of `show_random_specific_images`
(lines 97-107): assert the size argument is a list or tuple of length 2,
draw `size[0]*size[1]` identifiers without replacement, and gather one
single-category image per drawn identifier. The plotting of the gathered
images (lines 109-121) is presentation and is not modelled. -/
def show_random_specific_images (shuffle : List String → List String)
    (size : SizeArg) (image_ids : List String) (image_types : String)
    (paths_list : List PathRecord) (decode : String → PixelArray) :
    Except String (List PixelArray) :=
  match size with
  | SizeArg.nonSeq t =>
      Except.error ("The size parameter should be a list or tuple, got " ++ t ++ ".")
  | SizeArg.seq s =>
      if s.length = 2 then
        do
          let sampled ← npRandomChoiceNoReplace (shuffle image_ids) (s[0]! * s[1]!)
          mapExcept (fun img => single_image_info img image_types paths_list decode) sampled
      else
        Except.error ("The image size parameter should be 2, got " ++ toString s.length ++ ".")

/-- Embeds the validation and gathering phase of `show_random_general_images`
(lines 124-132): assert `4 < num_imgs < 10`, draw `num_imgs` identifiers
without replacement, and assemble all categories for each. The plotting
loop (lines 134-145) is modelled separately by `general_grid_cell`. -/
def show_random_general_images (shuffle : List String → List String)
    (num_imgs : Int) (image_ids : List String) (paths_list : List PathRecord)
    (decode : String → PixelArray) :
    Except String (List (List (String × PixelArray))) :=
  if 4 < num_imgs ∧ num_imgs < 10 then
    do
      let sampled ← npRandomChoiceNoReplace (shuffle image_ids) num_imgs
      mapExcept (fun img => all_image_info img paths_list decode) sampled
  else
    Except.error ("Number of images should be in range (4, 10), got " ++ toString num_imgs ++ ".")

/-- Embeds the plotting loop of `show_random_general_images` (lines 134-145):
given the gathered per-identifier assembled images, the grid has `num_imgs`
rows and `len(images[0])` columns, and the cell at flat index `indx` shows
`images[indx // 10][order[indx % len(images[0])]]` where
`order = list(images[0].keys())`. `none` models an IndexError/KeyError. -/
def general_grid_cell (images : List (List (String × PixelArray))) (indx : Nat) :
    Option PixelArray :=
  match images with
  | [] => none
  | first :: _ =>
    match (first.map Prod.fst).get? (indx % first.length) with
    | none => none
    | some image_type =>
      match images.get? (indx / 10) with
      | none => none
      | some img => img.lookup image_type

/-- The state populated by `load_json_files` (lines 49-69): the three parsed
manifests and the derived concatenated table. -/
structure ManifestState where
  train_data_paths : List PathRecord
  val_data_paths : List PathRecord
  test_data_paths : List PathRecord
  complete_paths : List PathRecord
deriving DecidableEq

/-- Embeds `load_json_files` (lines 49-69): the filesystem is a map from
path to parsed JSON content (`none` when the file is absent). Each of
`train.json`, `val.json`, `test.json` is asserted to exist, in that order;
`complete_paths` is built by appending the three lists in train, val, test
order. -/
def load_json_files (fs : String → Option (List PathRecord)) (processed_paths : String) :
    Except String ManifestState :=
  match fs (processed_paths ++ "/train.json") with
  | none => Except.error "AssertionError: train.json does not exist"
  | some train_data =>
    match fs (processed_paths ++ "/val.json") with
    | none => Except.error "AssertionError: val.json does not exist"
    | some val_data =>
      match fs (processed_paths ++ "/test.json") with
      | none => Except.error "AssertionError: test.json does not exist"
      | some test_data =>
        Except.ok ⟨train_data, val_data, test_data, train_data ++ val_data ++ test_data⟩

/-- The observable steps of the `__main__` block of inspect.py. -/
inductive MainEvent
  | loadManifests
  | listImages
  | buildClassDict
  | runSpecific
  | runGeneral
deriving DecidableEq

/-- Embeds the `__main__` block of inspect.py (lines 155-176) as the ordered
trace of the work it performs for a given `--mode`, together with the error
it raises, if any, assuming each setup step itself succeeds: it always first
loads the manifest files (line 166), lists the dataset directory (line 169)
and builds the class dictionary (line 170), and only then dispatches on the
mode (lines 171-176). -/
def inspect_main (mode : String) : List MainEvent × Option String :=
  let setup := [MainEvent.loadManifests, MainEvent.listImages, MainEvent.buildClassDict]
  if mode = "specific" then (setup ++ [MainEvent.runSpecific], none)
  else if mode = "general" then (setup ++ [MainEvent.runGeneral], none)
  else (setup, some "You have provided an invalid mode, should be [random] or [general].")

/-- ASCII lowering, embedding Python `str.lower()` for the tokens used here. -/
def strToLower (s : String) : String := ⟨s.data.map Char.toLower⟩

/-- Embeds Python `str.endswith(suff)`. -/
def strEndsWith (s suff : String) : Bool := List.isSuffixOf suff.data s.data

/-- The two loss functions importable in prototype.py (from model.loss). -/
inductive AuxFun
  | dice_loss_2d
  | surface_channel_loss_2d
deriving DecidableEq

/-- A custom-objects mapping: auxiliary-function name to implementation. -/
abbrev CustomObjects := List (String × AuxFun)

/-- The argument of `_validate_custom_objects`: either already a dictionary
of custom objects, or a shortcut keyword string. -/
inductive CustomObjectsArg
  | dict (m : CustomObjects)
  | shortcut (s : String)

/-- Embeds `FarmlandAnomalyModel._validate_custom_objects`
(src/prototype.py, lines 84-99): a dictionary is returned unchanged; the
shortcut strings resolve to the corresponding loss-function dictionary;
any other string raises a ValueError naming the keyword. -/
def validate_custom_objects : CustomObjectsArg → Except String CustomObjects
  | CustomObjectsArg.dict m => Except.ok m
  | CustomObjectsArg.shortcut s =>
    if strToLower s = "dice" then
      Except.ok [("dice_loss_2d", AuxFun.dice_loss_2d)]
    else if strToLower s = "scl" ∨ strToLower s = "surface" then
      Except.ok [("surface_loss_2d", AuxFun.surface_channel_loss_2d)]
    else
      Except.error ("Received invalid custom object shortcut keyword " ++ s ++ ".")

/-- The shortcut group for the stage-1 weights (prototype.py line 74). -/
def stage1Names : List String := ["dice20", "20", "first", "stage1"]

/-- The shortcut group for the stage-2 weights (prototype.py line 77). -/
def stage2Names : List String := ["scl40", "40", "middle", "stage2", "intermediate"]

/-- The shortcut group for the stage-3 weights (prototype.py line 80). -/
def stage3Names : List String := ["dice60", "60", "last", "final", "stage3"]

/-- The result of `load_model`: the artifact path it was pointed at and the
custom objects attached, kept abstract. -/
structure LoadedModel where
  path : String
  customObjects : Option CustomObjects
deriving DecidableEq

/-- Embeds `FarmlandAnomalyModel._initialize_model` (src/prototype.py,
lines 55-82). `ex` models `os.path.exists`; `baseDir` models
`os.path.dirname(__file__)`. The returned `Option LoadedModel` is the value
of `self.model` after the call (`none` when it is left unset); errors model
raised exceptions. Note the shortcut chain has no final else branch: an
unrecognized non-path token falls through and leaves the model unset. -/
def init_model (ex : String → Bool) (baseDir : String) (model : String)
    (customObjects : Option CustomObjectsArg) :
    Except String (Option LoadedModel) :=
  if strEndsWith model ".hdf5" || strEndsWith model ".h5" then
    if ex model then
      match customObjects with
      | some co => do
          let v ← validate_custom_objects co
          Except.ok (some ⟨model, some v⟩)
      | none => Except.ok (some ⟨model, none⟩)
    else
      Except.error ("Received a model path ending with .hdf5 (" ++ model ++
        "), but the path to the model does not exist.")
  else
    if stage1Names.contains (strToLower model) then
      do
        let v ← validate_custom_objects (CustomObjectsArg.shortcut "dice")
        Except.ok (some ⟨baseDir ++ "/logs/save/Model-Dice2D-20.hdf5", some v⟩)
    else if stage2Names.contains (strToLower model) then
      do
        let v ← validate_custom_objects (CustomObjectsArg.shortcut "scl")
        Except.ok (some ⟨baseDir ++ "/logs/save/Model-Dice-SCL-40.hdf5", some v⟩)
    else if stage3Names.contains (strToLower model) then
      do
        let v ← validate_custom_objects (CustomObjectsArg.shortcut "dice")
        Except.ok (some ⟨baseDir ++ "/logs/save/Model-Dice-SCL-Dice-60.hdf5", some v⟩)
    else
      Except.ok none

/-! Concrete inputs used to evaluate the definitions. -/

/-- Five assembled image sets with two categories each (k = 2), a concrete
input to the general grid layout. -/
def exampleGeneralImages : List (List (String × PixelArray)) :=
  [[("rgb", [[0]]), ("label_x", [[10]])],
   [("rgb", [[1]]), ("label_x", [[11]])],
   [("rgb", [[2]]), ("label_x", [[12]])],
   [("rgb", [[3]]), ("label_x", [[13]])],
   [("rgb", [[4]]), ("label_x", [[14]])]]

/-- Two records sharing the id `X`: an earlier (train) and a later (test)
one, for the first-match-wins check. -/
def dupRecords : List PathRecord :=
  [[("id", "X"), ("rgb", "train/a.png")],
   [("id", "X"), ("rgb", "test/b.png")]]

/-- A record with categories rgb, label_a, label_b besides id and classes. -/
def exampleRecord : PathRecord :=
  [("id", "X"), ("classes", "[]"), ("rgb", "a.png"),
   ("label_a", "b.png"), ("label_b", "c.png")]

/-- Five distinct identifiers. -/
def exampleIds : List String := ["a", "b", "c", "d", "e"]

/-- One manifest record per identifier of `exampleIds`. -/
def exampleRecords : List PathRecord :=
  [[("id", "a"), ("rgb", "a.png")],
   [("id", "b"), ("rgb", "b.png")],
   [("id", "c"), ("rgb", "c.png")],
   [("id", "d"), ("rgb", "d.png")],
   [("id", "e"), ("rgb", "e.png")]]

/-- A concrete image decoder: the decoded array records the path length. -/
def constDecode : String → PixelArray := fun p => [[p.length]]

/-- A filesystem holding the three manifest files under directory `d`. -/
def exampleFs : String → Option (List PathRecord) := fun p =>
  if p = "d/train.json" then some [[("id", "t1")]]
  else if p = "d/val.json" then some [[("id", "v1")]]
  else if p = "d/test.json" then some [[("id", "s1")]]
  else none

/-- A filesystem with no files at all. -/
def emptyFs : String → Option (List PathRecord) := fun _ => none

/-! Shared lemmas. -/

/-- The linear scan of `get_processed_paths` agrees with first-match search:
when every record carries an `id` key, the function returns the first record
whose `id` equals the queried identifier, and the not-found error otherwise. -/
theorem get_processed_paths_find (identifier : String) (records : List PathRecord)
    (hid : ∀ r ∈ records, (r.lookup "id").isSome) :
    get_processed_paths identifier records =
      match records.find? (fun r => r.lookup "id" == some identifier) with
      | some r => Except.ok r
      | none => Except.error ("The item " ++ identifier ++ " was not found in the dataset.") := by
  induction records with
  | nil => rfl
  | cons item rest ih =>
    have hi := hid item (List.mem_cons_self _ _)
    have hrest := fun r hr => hid r (List.mem_cons_of_mem _ hr)
    cases hv : item.lookup "id" with
    | none => rw [hv] at hi; simp at hi
    | some v =>
      by_cases hvi : v = identifier
      · subst hvi
        simp [get_processed_paths, List.find?_cons, hv]
      · simp only [get_processed_paths, List.find?_cons, hv]
        rw [if_neg hvi]
        have hbeq : (some v == some identifier) = false := by
          simp [hvi]
        rw [hbeq]
        exact ih hrest

/-- When every record carries an `id` key and some record matches, the path
resolution succeeds. -/
theorem get_processed_paths_ok (image_id : String) (records : List PathRecord)
    (hid : ∀ r ∈ records, (r.lookup "id").isSome)
    (hfind : (records.find? (fun r => r.lookup "id" == some image_id)).isSome) :
    ∃ r, get_processed_paths image_id records = Except.ok r := by
  rw [Option.isSome_iff_exists] at hfind
  obtain ⟨r, hr⟩ := hfind
  refine ⟨r, ?_⟩
  rw [get_processed_paths_find image_id records hid, hr]

/-- When path resolution succeeds, assembly of all categories succeeds. -/
theorem all_image_info_ok (image_id : String) (records : List PathRecord)
    (decode : String → PixelArray)
    (hid : ∀ r ∈ records, (r.lookup "id").isSome)
    (hfind : (records.find? (fun r => r.lookup "id" == some image_id)).isSome) :
    ∃ m, all_image_info image_id records decode = Except.ok m := by
  obtain ⟨r, hr⟩ := get_processed_paths_ok image_id records hid hfind
  refine ⟨r.filterMap (fun kv =>
    if kv.1 = "id" then none
    else if kv.1 = "classes" then none
    else some (kv.1, decode kv.2)), ?_⟩
  simp only [all_image_info, hr]
  rfl

/-- The left-to-right effectful map succeeds when every element does, and the
output is pointwise the successful result of the input. -/
theorem mapExcept_ok {α β : Type} (f : α → Except String β) (l : List α)
    (h : ∀ a ∈ l, ∃ b, f a = Except.ok b) :
    ∃ out, mapExcept f l = Except.ok out ∧
      List.Forall₂ (fun a b => f a = Except.ok b) l out := by
  induction l with
  | nil => exact ⟨[], rfl, List.Forall₂.nil⟩
  | cons a l ih =>
    obtain ⟨b, hb⟩ := h a (List.mem_cons_self _ _)
    obtain ⟨out, hout, hfa⟩ := ih (fun x hx => h x (List.mem_cons_of_mem _ hx))
    refine ⟨b :: out, ?_, List.Forall₂.cons hb hfa⟩
    show (do
      let b ← f a
      let rest ← mapExcept f l
      Except.ok (b :: rest)) = Except.ok (b :: out)
    rw [hb, hout]
    rfl

/-! Claim theorems. -/

/-- C1: evaluating the general grid layout at five sampled identifiers whose
assembled results have k = 2 categories in order rgb, label_x: the cell at
row 1, column 0 (flat index 1*2+0 = 2) displays the rgb image of sampled
identifier 0 (pixel array [[0]]), not the rgb image of sampled identifier 1
(pixel array [[1]]) as one row per identifier requires — the row index is
computed as the flat index divided by the hardcoded constant 10 instead of
by the category count of the first assembled result. -/
theorem C1_grid_row_hardcoded_ten :
    general_grid_cell exampleGeneralImages (1 * 2 + 0) = some [[0]] ∧
      (exampleGeneralImages.get? 1).bind (fun r => r.lookup "rgb") = some [[1]] ∧
      ([[0]] : PixelArray) ≠ [[1]] :=
  ⟨rfl, rfl, by decide⟩

/-- C2 counterexample: with the invalid mode `bogus`, the entry point does
raise the invalid-mode error, but the manifest load has already been
performed before the error — refuting that no work happens first. -/
theorem C2_counterexample :
    (inspect_main "bogus").2.isSome = true ∧
      MainEvent.loadManifests ∈ (inspect_main "bogus").1 := by
  refine ⟨rfl, ?_⟩
  show MainEvent.loadManifests ∈
    [MainEvent.loadManifests, MainEvent.listImages, MainEvent.buildClassDict]
  exact List.mem_cons_self _ _

/-- C2 (amended): for every mode that is neither `specific` nor `general`,
the entry point raises the invalid-mode configuration error, but only after
loading the manifest files, listing the dataset directory and building the
class dictionary: exactly those three work steps precede the error. -/
theorem C2_invalid_mode_error_after_setup (mode : String)
    (h1 : mode ≠ "specific") (h2 : mode ≠ "general") :
    inspect_main mode =
      ([MainEvent.loadManifests, MainEvent.listImages, MainEvent.buildClassDict],
        some "You have provided an invalid mode, should be [random] or [general].") := by
  unfold inspect_main
  rw [if_neg h1, if_neg h2]

/-- C2 witness: the amended statement evaluated at the concrete mode
`bogus`. -/
theorem C2_witness :
    inspect_main "bogus" =
      ([MainEvent.loadManifests, MainEvent.listImages, MainEvent.buildClassDict],
        some "You have provided an invalid mode, should be [random] or [general].") :=
  C2_invalid_mode_error_after_setup "bogus" (by decide) (by decide)

/-- C4: for every identifier and sequence of records (each carrying an `id`
key), `get_processed_paths` returns the first record in sequence order whose
`id` equals the identifier — so with duplicates across the merged table the
earlier record wins — and raises the not-found error naming the identifier
exactly when no record matches. -/
theorem C4_get_processed_paths_first_match (identifier : String) (records : List PathRecord)
    (hid : ∀ r ∈ records, (r.lookup "id").isSome) :
    get_processed_paths identifier records =
      match records.find? (fun r => r.lookup "id" == some identifier) with
      | some r => Except.ok r
      | none => Except.error ("The item " ++ identifier ++ " was not found in the dataset.") :=
  get_processed_paths_find identifier records hid

/-- C4 witness: with two records both carrying id `X`, the earlier record
wins. -/
theorem C4_witness :
    get_processed_paths "X" dupRecords = Except.ok [("id", "X"), ("rgb", "train/a.png")] := by
  rw [C4_get_processed_paths_first_match "X" dupRecords (by decide)]
  rfl

/-- C5: for every token that does not end in `.hdf5` or `.h5` and whose
lowercase form is in none of the three shortcut groups, model
initialization completes without error and leaves the model unset. -/
theorem C5_unrecognized_model_silent (ex : String → Bool) (baseDir model : String)
    (co : Option CustomObjectsArg)
    (h1 : strEndsWith model ".hdf5" = false) (h2 : strEndsWith model ".h5" = false)
    (h3 : stage1Names.contains (strToLower model) = false)
    (h4 : stage2Names.contains (strToLower model) = false)
    (h5 : stage3Names.contains (strToLower model) = false) :
    init_model ex baseDir model co = Except.ok none := by
  unfold init_model
  rw [h1, h2, h3, h4, h5]
  rfl

/-- C5 witness: the token `mystery` is not a model path and not a shortcut,
and initialization silently leaves the model unset. -/
theorem C5_witness :
    init_model (fun _ => false) "base" "mystery" none = Except.ok none :=
  C5_unrecognized_model_silent (fun _ => false) "base" "mystery" none
    (by decide) (by decide) (by decide) (by decide) (by decide)

/-- C9: custom-object validation maps the shortcuts `scl` and `surface` to
the same surface-channel-loss mapping, maps `dice` to the dice-loss mapping,
and fails with the invalid-shortcut error on every other string. -/
theorem C9_validate_custom_objects_shortcut :
    validate_custom_objects (CustomObjectsArg.shortcut "scl") =
        validate_custom_objects (CustomObjectsArg.shortcut "surface") ∧
    validate_custom_objects (CustomObjectsArg.shortcut "scl") =
        Except.ok [("surface_loss_2d", AuxFun.surface_channel_loss_2d)] ∧
    validate_custom_objects (CustomObjectsArg.shortcut "dice") =
        Except.ok [("dice_loss_2d", AuxFun.dice_loss_2d)] ∧
    (∀ s, strToLower s ≠ "dice" → strToLower s ≠ "scl" → strToLower s ≠ "surface" →
      validate_custom_objects (CustomObjectsArg.shortcut s) =
        Except.error ("Received invalid custom object shortcut keyword " ++ s ++ ".")) := by
  refine ⟨rfl, rfl, rfl, ?_⟩
  intro s hd hs hsu
  show (if strToLower s = "dice" then
      Except.ok [("dice_loss_2d", AuxFun.dice_loss_2d)]
    else if strToLower s = "scl" ∨ strToLower s = "surface" then
      Except.ok [("surface_loss_2d", AuxFun.surface_channel_loss_2d)]
    else
      Except.error ("Received invalid custom object shortcut keyword " ++ s ++ ".")) =
    Except.error ("Received invalid custom object shortcut keyword " ++ s ++ ".")
  rw [if_neg hd, if_neg (not_or.mpr ⟨hs, hsu⟩)]

/-- C9 witness: the invalid-shortcut branch evaluated at the concrete string
`unknown`. -/
theorem C9_witness :
    validate_custom_objects (CustomObjectsArg.shortcut "unknown") =
      Except.error "Received invalid custom object shortcut keyword unknown." :=
  C9_validate_custom_objects_shortcut.2.2.2 "unknown" (by decide) (by decide) (by decide)

/-- C10: for every dictionary argument, custom-object validation is the
identity: the dictionary is returned unchanged and no error is raised. -/
theorem C10_validate_custom_objects_dict_identity (m : CustomObjects) :
    validate_custom_objects (CustomObjectsArg.dict m) = Except.ok m :=
  rfl

/-- C3 counterexample: `(0, 0)` is a 2-element shape whose elements are not
positive integers, yet the gathering phase of the specific-image sampler
succeeds (with an empty sample) instead of failing. -/
theorem C3_counterexample :
    show_random_specific_images (fun l => l) (SizeArg.seq [0, 0]) ["a"] "rgb" [] constDecode =
      Except.ok [] ∧ ¬(0 < (0 : Int)) :=
  ⟨rfl, by decide⟩

/-- C3 (amended): the specific-image sampler validates only that the size
argument is a list or tuple of length 2 — it fails on a non-sequence and on
any other length, but does not check that the elements are positive
integers — and it fails when `size[0]*size[1]` exceeds the number of
available identifiers. -/
theorem C3_specific_size_validation
    (shuffle : List String → List String) (image_ids : List String)
    (image_types : String) (paths_list : List PathRecord) (decode : String → PixelArray)
    (hperm : (shuffle image_ids).Perm image_ids) :
    (∀ t, show_random_specific_images shuffle (SizeArg.nonSeq t) image_ids image_types
        paths_list decode =
      Except.error ("The size parameter should be a list or tuple, got " ++ t ++ ".")) ∧
    (∀ s : List Int, s.length ≠ 2 →
      show_random_specific_images shuffle (SizeArg.seq s) image_ids image_types
        paths_list decode =
      Except.error ("The image size parameter should be 2, got " ++ toString s.length ++ ".")) ∧
    (∀ a b : Int, (image_ids.length : Int) < a * b →
      ∃ e, show_random_specific_images shuffle (SizeArg.seq [a, b]) image_ids image_types
        paths_list decode = Except.error e) := by
  have hsl : ((shuffle image_ids).length : Int) = (image_ids.length : Int) := by
    rw [hperm.length_eq]
  refine ⟨fun t => rfl, ?_, ?_⟩
  · intro s hs
    simp only [show_random_specific_images]
    rw [if_neg hs]
  · intro a b hab
    refine ⟨"ValueError: Cannot take a larger sample than population when replace is False", ?_⟩
    simp only [show_random_specific_images]
    have hlen2 : ([a, b] : List Int).length = 2 := rfl
    rw [if_pos hlen2]
    have h0 : ([a, b] : List Int)[0]! = a := rfl
    have h1 : ([a, b] : List Int)[1]! = b := rfl
    rw [h0, h1]
    unfold npRandomChoiceNoReplace
    rw [if_neg (by omega), if_pos (by omega)]
    rfl

/-- C3 witness: the amended statement evaluated at a non-sequence argument
and at a 2-element shape requesting more samples than available. -/
theorem C3_witness :
    show_random_specific_images (fun l => l) (SizeArg.nonSeq "int") ["a"] "rgb" [] constDecode =
      Except.error "The size parameter should be a list or tuple, got int." ∧
    (∃ e, show_random_specific_images (fun l => l) (SizeArg.seq [2, 3]) ["a"] "rgb" []
      constDecode = Except.error e) :=
  ⟨(C3_specific_size_validation (fun l => l) ["a"] "rgb" [] constDecode
      (List.Perm.refl _)).1 "int",
   (C3_specific_size_validation (fun l => l) ["a"] "rgb" [] constDecode
      (List.Perm.refl _)).2.2 2 3 (by decide)⟩

/-- C6: the general-image sampler fails for every count at most 4 and every
count at least 10; for every count strictly between 4 and 10, with enough
distinct identifiers all resolvable in the records, it succeeds and gathers
exactly count assembled multi-category image sets, one per sampled
identifier, the sampled identifiers being distinct (drawn without
replacement) and drawn from the given identifiers. -/
theorem C6_show_random_general_images_range
    (shuffle : List String → List String) (num_imgs : Int) (image_ids : List String)
    (paths_list : List PathRecord) (decode : String → PixelArray)
    (hperm : (shuffle image_ids).Perm image_ids) :
    ((num_imgs ≤ 4 ∨ 10 ≤ num_imgs) →
      ∃ e, show_random_general_images shuffle num_imgs image_ids paths_list decode =
        Except.error e) ∧
    (4 < num_imgs → num_imgs < 10 → num_imgs ≤ (image_ids.length : Int) →
      image_ids.Nodup →
      (∀ r ∈ paths_list, (r.lookup "id").isSome) →
      (∀ i ∈ image_ids, (paths_list.find? (fun r => r.lookup "id" == some i)).isSome) →
      ∃ sampled out,
        show_random_general_images shuffle num_imgs image_ids paths_list decode =
          Except.ok out ∧
        sampled.length = num_imgs.toNat ∧ out.length = num_imgs.toNat ∧
        sampled.Nodup ∧ (∀ i ∈ sampled, i ∈ image_ids) ∧
        List.Forall₂ (fun i a => all_image_info i paths_list decode = Except.ok a)
          sampled out) := by
  have hsl : ((shuffle image_ids).length : Int) = (image_ids.length : Int) := by
    rw [hperm.length_eq]
  constructor
  · intro hrange
    refine ⟨"Number of images should be in range (4, 10), got " ++ toString num_imgs ++ ".", ?_⟩
    unfold show_random_general_images
    rw [if_neg (by omega)]
  · intro h4 h10 hlen hnodup hid hfind
    have htoNat : num_imgs.toNat ≤ image_ids.length := by omega
    have hchoice : npRandomChoiceNoReplace (shuffle image_ids) num_imgs =
        Except.ok ((shuffle image_ids).take num_imgs.toNat) := by
      unfold npRandomChoiceNoReplace
      rw [if_neg (by omega), if_neg (by omega)]
    have hmem : ∀ i ∈ (shuffle image_ids).take num_imgs.toNat, i ∈ image_ids := by
      intro i hi
      exact hperm.mem_iff.mp ((List.take_sublist _ _).mem hi)
    have hsnodup : ((shuffle image_ids).take num_imgs.toNat).Nodup :=
      (List.take_sublist _ _).nodup (hperm.symm.nodup hnodup)
    have hslen2 : ((shuffle image_ids).take num_imgs.toNat).length = num_imgs.toNat := by
      rw [List.length_take, hperm.length_eq]
      omega
    have hok : ∀ i ∈ (shuffle image_ids).take num_imgs.toNat,
        ∃ m, all_image_info i paths_list decode = Except.ok m := by
      intro i hi
      exact all_image_info_ok i paths_list decode hid (hfind i (hmem i hi))
    obtain ⟨out, hout, hfa⟩ :=
      mapExcept_ok (fun i => all_image_info i paths_list decode) _ hok
    refine ⟨(shuffle image_ids).take num_imgs.toNat, out, ?_, hslen2, ?_, hsnodup, hmem, hfa⟩
    · unfold show_random_general_images
      rw [if_pos ⟨h4, h10⟩, hchoice]
      exact hout
    · rw [← hfa.length_eq, hslen2]

/-- C6 witness: with five distinct identifiers all present in the records,
a count of 4 fails and a count of 5 succeeds with five assembled sets. -/
theorem C6_witness :
    (∃ e, show_random_general_images (fun l => l) 4 exampleIds exampleRecords constDecode =
      Except.error e) ∧
    (∃ sampled out,
      show_random_general_images (fun l => l) 5 exampleIds exampleRecords constDecode =
        Except.ok out ∧
      sampled.length = (5 : Int).toNat ∧ out.length = (5 : Int).toNat ∧
      sampled.Nodup ∧ (∀ i ∈ sampled, i ∈ exampleIds) ∧
      List.Forall₂ (fun i a => all_image_info i exampleRecords constDecode = Except.ok a)
        sampled out) :=
  ⟨(C6_show_random_general_images_range (fun l => l) 4 exampleIds exampleRecords constDecode
      (List.Perm.refl _)).1 (Or.inl (by decide)),
   (C6_show_random_general_images_range (fun l => l) 5 exampleIds exampleRecords constDecode
      (List.Perm.refl _)).2 (by decide) (by decide) (by decide) (by decide)
      (by decide) (by decide)⟩

/-- C7: for every record reachable by resolution, assembling all categories
succeeds and yields a mapping whose keys are exactly the keys of the record
other than `id` and `classes`, each carrying the decoded pixel array of the
corresponding file. -/
theorem C7_all_image_info_categories
    (identifier : String) (records : List PathRecord) (decode : String → PixelArray)
    (r : PathRecord) (hres : get_processed_paths identifier records = Except.ok r) :
    ∃ m, all_image_info identifier records decode = Except.ok m ∧
      (∀ k, (∃ v, (k, v) ∈ m) ↔ (k ≠ "id" ∧ k ≠ "classes" ∧ ∃ p, (k, p) ∈ r)) ∧
      (∀ k p, (k, p) ∈ r → k ≠ "id" → k ≠ "classes" → (k, decode p) ∈ m) := by
  refine ⟨r.filterMap (fun kv =>
    if kv.1 = "id" then none
    else if kv.1 = "classes" then none
    else some (kv.1, decode kv.2)), ?_, ?_, ?_⟩
  · simp only [all_image_info, hres]
    rfl
  · intro k
    constructor
    · rintro ⟨v, hv⟩
      rw [List.mem_filterMap] at hv
      obtain ⟨⟨k2, p⟩, hmem, hf⟩ := hv
      by_cases h1 : k2 = "id"
      · simp [h1] at hf
      by_cases h2 : k2 = "classes"
      · simp [h1, h2] at hf
      simp only [h1, h2, if_false, ite_false, Option.some.injEq, Prod.mk.injEq] at hf
      obtain ⟨hk, hv2⟩ := hf
      subst hk
      exact ⟨h1, h2, p, hmem⟩
    · rintro ⟨h1, h2, p, hp⟩
      exact ⟨decode p, List.mem_filterMap.mpr ⟨(k, p), hp, by simp [h1, h2]⟩⟩
  · intro k p hp h1 h2
    exact List.mem_filterMap.mpr ⟨(k, p), hp, by simp [h1, h2]⟩

/-- C7 witness: the record with categories rgb, label_a, label_b besides
`id` and `classes`, resolved and assembled. -/
theorem C7_witness :
    ∃ m, all_image_info "X" [exampleRecord] constDecode = Except.ok m ∧
      (∀ k, (∃ v, (k, v) ∈ m) ↔
        (k ≠ "id" ∧ k ≠ "classes" ∧ ∃ p, (k, p) ∈ exampleRecord)) ∧
      (∀ k p, (k, p) ∈ exampleRecord → k ≠ "id" → k ≠ "classes" →
        (k, constDecode p) ∈ m) :=
  C7_all_image_info_categories "X" [exampleRecord] constDecode exampleRecord rfl

/-- C8: loading the manifests fails when any of the three files train.json,
val.json, test.json is absent from the directory; on success the three
parsed sequences are returned and the derived merged table is their
concatenation in train, val, test order. -/
theorem C8_load_json_files_concat (fs : String → Option (List PathRecord)) (dir : String) :
    ((fs (dir ++ "/train.json") = none ∨ fs (dir ++ "/val.json") = none ∨
        fs (dir ++ "/test.json") = none) →
      ∃ e, load_json_files fs dir = Except.error e) ∧
    (∀ t v te, fs (dir ++ "/train.json") = some t → fs (dir ++ "/val.json") = some v →
      fs (dir ++ "/test.json") = some te →
      load_json_files fs dir = Except.ok ⟨t, v, te, t ++ v ++ te⟩) := by
  constructor
  · intro hmiss
    unfold load_json_files
    cases htr : fs (dir ++ "/train.json") with
    | none => exact ⟨_, rfl⟩
    | some t =>
      cases hv : fs (dir ++ "/val.json") with
      | none => exact ⟨_, rfl⟩
      | some v =>
        cases hte : fs (dir ++ "/test.json") with
        | none => exact ⟨_, rfl⟩
        | some te =>
          rcases hmiss with h | h | h
          · rw [htr] at h; exact absurd h (by simp)
          · rw [hv] at h; exact absurd h (by simp)
          · rw [hte] at h; exact absurd h (by simp)
  · intro t v te ht hv hte
    unfold load_json_files
    rw [ht, hv, hte]

/-- C8 witness: loading fails on an empty filesystem and succeeds on a
filesystem holding the three manifest files, producing the concatenated
table. -/
theorem C8_witness :
    (∃ e, load_json_files emptyFs "d" = Except.error e) ∧
    load_json_files exampleFs "d" =
      Except.ok ⟨[[("id", "t1")]], [[("id", "v1")]], [[("id", "s1")]],
        [[("id", "t1")]] ++ [[("id", "v1")]] ++ [[("id", "s1")]]⟩ :=
  ⟨(C8_load_json_files_concat emptyFs "d").1 (Or.inl rfl),
   (C8_load_json_files_concat exampleFs "d").2 _ _ _ rfl rfl rfl⟩

end CropFieldHealth
